import Mathlib

/-!
# Verification of the defisaver-sim leveraged-vault model

This file gives a shallow embedding of the core of the defisaver-sim
repository and proves properties of it.

* `CDP` and its operations embed `modules/cdp.py` (class `CDP`).
* `simulateLeveragedSingle` embeds the tick loop of
  `modules/simulate.py`.
* `generateBoundedGBM` embeds the bounded geometric Brownian motion
  generator of `modules/pricegeneration.py`.

The Python code works on floats; following the specification's reading
("in exact real arithmetic"), the embedding uses exact arithmetic: `ℚ`
for the position/simulation code (keeping everything executable) and
`ℝ` for the price generator (which needs `exp`, `log`, `sqrt`).

Python behaviours are modelled explicitly:

* a float division whose divisor is zero raises `ZeroDivisionError`;
  every such division in the source is guarded in the embedding, and a
  raised exception is an `OpResult.err` / `Option.none` outcome;
* a failing `assert` raises; since the object may already have been
  mutated at that point, `OpResult.err` carries the state of the object
  at the moment the exception is raised;
* `CDP.automate` assigns the attribute `automated` (source line 92:
  `self.automated = True`), which is a *different* attribute from the
  `isAutomated` flag that `__init__`, `disableAutomation`, `repayTo`
  and the simulation loop use; the embedding keeps both fields.
-/

/-- Automation settings of a position: the dictionary
`{"repay from", "repay to", "boost from", "boost to"}` of `cdp.py`. -/
structure AutomationSettings where
  repay_from : ℚ
  repay_to : ℚ
  boost_from : ℚ
  boost_to : ℚ

/-- State of a collateralized debt position, `class CDP` of `cdp.py`.

`isAutomated` is the flag set in `__init__` (line 40) and read by
`disableAutomation`, `repayTo` and the simulation loop;
`automated` is the distinct attribute assigned by `automate`
(line 92).  In Python the latter attribute only springs into existence
at that assignment; since no code reads it before `automate` is called,
initialising it to `false` is immaterial. -/
structure CDP where
  collateral : ℚ
  debt : ℚ
  isAutomated : Bool
  automated : Bool
  automation_settings : AutomationSettings
  min_ratio : ℚ
  min_automation_debt : ℚ

/-- Constructor `CDP.__init__` (lines 34-44 of `cdp.py`). -/
def CDP.init (initial_collateral initial_debt min_ratio : ℚ) : CDP :=
  { collateral := initial_collateral
    debt := initial_debt
    isAutomated := false
    automated := false
    automation_settings := ⟨0, 0, 0, 0⟩
    min_ratio := min_ratio
    min_automation_debt := 10000 }

/-- Method `getCollateralizationRatio` (line 50 of `cdp.py`):
`100*self.collateral*price/self.debt`, the collateralization ratio
in percent.  (Python raises `ZeroDivisionError` when `debt = 0`;
callers of this embedding guard that case themselves, as the source
callers do.) -/
def CDP.collateralizationPercent (s : CDP) (price : ℚ) : ℚ :=
  100 * s.collateral * price / s.debt

/-- Method `close` (lines 64-79 of `cdp.py`).  Returns the remaining
collateral together with the new state; `none` models the
`ZeroDivisionError` raised by `self.debt/price` when `price = 0`. -/
def CDP.close (s : CDP) (price : ℚ) : Option (ℚ × CDP) :=
  if 0 < s.debt then
    if price = 0 then none
    else
      some (s.collateral - s.debt / price,
        { s with collateral := s.collateral - s.debt / price, debt := 0 })
  else
    some (s.collateral, s)

/-- Method `automate` (lines 81-96 of `cdp.py`).  `none` models the
failing `assert repay_from > self.min_ratio + 10`.  Note line 92
assigns `self.automated = True` — the attribute `automated`, not the
`isAutomated` flag. -/
def CDP.automate (s : CDP) (repay_from repay_to boost_from boost_to : ℚ) : Option CDP :=
  if repay_from > s.min_ratio + 10 then
    some { s with
      automated := true
      automation_settings := ⟨repay_from, repay_to, boost_from, boost_to⟩ }
  else
    none

/-- Method `disableAutomation` (lines 98-99 of `cdp.py`). -/
def CDP.disableAutomation (s : CDP) : CDP :=
  { s with isAutomated := false }

/-- Outcome of `boostTo`/`repayTo`: `ok b s` is a normal return of the
boolean `b` with post-state `s`; `err s` is an uncaught Python
exception (`ZeroDivisionError` or `AssertionError`) raised while the
object is in state `s`. -/
inductive OpResult where
  | err : CDP → OpResult
  | ok : Bool → CDP → OpResult

/-! ### boostTo

Method `boostTo` (lines 101-153 of `cdp.py`), line by line:

* line 119: eligibility `self.debt == 0 or target/100 < c*p/d`;
* line 122: `g = 1000000*gas_price_in_gwei*1e-9`;
* line 132: economic gate `p*g < (p*c - t*d)/(5*(t - gamma) + 1)`
  (raises when the denominator is zero);
* lines 134-135: the gas charged is capped at a price of 499 gwei —
  applied after the gate, to the `g` used for the deltas;
* line 137: `deltaDebt = (p*c - p*g - t*d)/(t - gamma)` (raises when
  `t = gamma`);
* line 141: `deltaCollateral = (gamma*deltaDebt - p*g)/p` (raises when
  `p = 0`);
* lines 143-146: state update, then `assert debt > 0` and
  `assert collateral > 0` on the already-mutated object.

The local variables `g`, `deltaDebt`, `deltaCollateral` of the source
are the definitions `boostGas`, `boostDeltaDebt`,
`boostDeltaCollateral` below, and the updated state is `boostPost`;
the gate (line 132) uses the *uncapped* gas conversion of line 122,
while the deltas use the capped `boostGas`, exactly as in the source,
where the cap reassigns `g` only after the gate has passed. -/

/-- The gas value `g` used for the deltas of `boostTo`: the conversion
of line 122 of `cdp.py`, with the 499-gwei cap of lines 134-135. -/
def boostGas (gas_price_in_gwei : ℚ) : ℚ :=
  if gas_price_in_gwei > 499 then 1000000 * 499 * (1 / 1000000000)
  else 1000000 * gas_price_in_gwei * (1 / 1000000000)

/-- The local `deltaDebt` of `boostTo` (line 137 of `cdp.py`):
`(p*c - p*g - t*d)/(t - gamma)` with the capped gas. -/
def boostDeltaDebt (s : CDP) (target price gas_price_in_gwei service_fee : ℚ) : ℚ :=
  (price * s.collateral - price * boostGas gas_price_in_gwei - target / 100 * s.debt) /
    (target / 100 - (1 - service_fee / 100))

/-- The local `deltaCollateral` of `boostTo` (line 141 of `cdp.py`):
`(gamma*deltaDebt - p*g)/p`. -/
def boostDeltaCollateral (s : CDP) (target price gas_price_in_gwei service_fee : ℚ) : ℚ :=
  ((1 - service_fee / 100) * boostDeltaDebt s target price gas_price_in_gwei service_fee -
    price * boostGas gas_price_in_gwei) / price

/-- The state after the updates of lines 143-144 of `cdp.py`
(`self.debt += deltaDebt; self.collateral += deltaCollateral`). -/
def boostPost (s : CDP) (target price gas_price_in_gwei service_fee : ℚ) : CDP :=
  { s with
    debt := s.debt + boostDeltaDebt s target price gas_price_in_gwei service_fee
    collateral :=
      s.collateral + boostDeltaCollateral s target price gas_price_in_gwei service_fee }

def CDP.boostTo (s : CDP) (target price gas_price_in_gwei service_fee : ℚ) : OpResult :=
  if s.debt = 0 ∨ target / 100 < s.collateral * price / s.debt then
    if 5 * (target / 100 - (1 - service_fee / 100)) + 1 = 0 then .err s
    else if price * (1000000 * gas_price_in_gwei * (1 / 1000000000)) <
        (price * s.collateral - target / 100 * s.debt) /
          (5 * (target / 100 - (1 - service_fee / 100)) + 1) then
      if target / 100 - (1 - service_fee / 100) = 0 then .err s
      else if price = 0 then .err s
      else
        if 0 < (boostPost s target price gas_price_in_gwei service_fee).debt then
          if 0 < (boostPost s target price gas_price_in_gwei service_fee).collateral then
            .ok true (boostPost s target price gas_price_in_gwei service_fee)
          else .err (boostPost s target price gas_price_in_gwei service_fee)
        else .err (boostPost s target price gas_price_in_gwei service_fee)
    else .ok false s
  else .ok false s

/-! ### repayTo

Method `repayTo` (lines 155-223 of `cdp.py`), line by line:

* line 172: `collateralization = c*price/debt` — raises
  `ZeroDivisionError` when `debt = 0` (so line 175's `assert False` is
  never reached; either way the call dies with the state untouched);
* line 177: eligibility `collateralization < target/100`;
* line 194: `isEmergencyRepay` iff `100*collateralization <
  min_ratio + 10`;
* line 198: gate `p*g < (t*d - p*c)/(5*(gamma*t - 1) - t)` or
  emergency (raises when the denominator is zero);
* lines 199-202: on an emergency repay whose gas exceeds the bound,
  `g` is clamped to `(1/p)*(t*d - p*c)/(5*(gamma*t - 1) - t)`;
* lines 204-205: otherwise the 499-gwei cap of `boostTo` applies;
* line 207: `deltaCollateral = (t*d + t*p*g - p*c)/(p*(gamma*t - 1))`
  (raises when `p = 0` or `gamma*t = 1`; when `p = 0` the emergency
  clamp's `1/p` raises first — the same `err s` outcome);
* line 210: `deltaDebt = gamma*p*deltaCollateral - p*g`;
* lines 211-212: if the debt *before* the update is below
  `min_automation_debt`, the `isAutomated` flag is cleared;
* lines 214-217: state update, then `assert collateral > 0` and
  `assert debt > 0` on the already-mutated object.

The local variables `g`, `deltaCollateral`, `deltaDebt` of the source
are `repayGas`, `repayDeltaCollateral`, `repayDeltaDebt` below, and
the updated state (with the automation side effect of lines 211-212)
is `repayPost`. -/

/-- The gas value `g` used for the deltas of `repayTo`: the conversion
of line 180 of `cdp.py`, with the emergency clamp of lines 199-202 and
the 499-gwei cap of lines 204-205. -/
def repayGas (s : CDP) (target price gas_price_in_gwei service_fee : ℚ) : ℚ :=
  if 100 * (s.collateral * price / s.debt) < s.min_ratio + 10 then
    if price * (1000000 * gas_price_in_gwei * (1 / 1000000000)) >
        (target / 100 * s.debt - price * s.collateral) /
          (5 * ((1 - service_fee / 100) * (target / 100) - 1) - target / 100) then
      1 / price * (target / 100 * s.debt - price * s.collateral) /
        (5 * ((1 - service_fee / 100) * (target / 100) - 1) - target / 100)
    else 1000000 * gas_price_in_gwei * (1 / 1000000000)
  else if gas_price_in_gwei > 499 then 1000000 * 499 * (1 / 1000000000)
  else 1000000 * gas_price_in_gwei * (1 / 1000000000)

/-- The local `deltaCollateral` of `repayTo` (line 207 of `cdp.py`):
`(t*d + t*p*g - p*c)/(p*(gamma*t - 1))`. -/
def repayDeltaCollateral (s : CDP) (target price gas_price_in_gwei service_fee : ℚ) : ℚ :=
  (target / 100 * s.debt +
      target / 100 * price * repayGas s target price gas_price_in_gwei service_fee -
    price * s.collateral) / (price * ((1 - service_fee / 100) * (target / 100) - 1))

/-- The local `deltaDebt` of `repayTo` (line 210 of `cdp.py`):
`gamma*p*deltaCollateral - p*g`. -/
def repayDeltaDebt (s : CDP) (target price gas_price_in_gwei service_fee : ℚ) : ℚ :=
  (1 - service_fee / 100) * price *
      repayDeltaCollateral s target price gas_price_in_gwei service_fee -
    price * repayGas s target price gas_price_in_gwei service_fee

/-- The state after lines 211-215 of `cdp.py`: the automation flag is
cleared when the debt *before* the update is below
`min_automation_debt`, then `collateral -= deltaCollateral` and
`debt -= deltaDebt`. -/
def repayPost (s : CDP) (target price gas_price_in_gwei service_fee : ℚ) : CDP :=
  { s with
    isAutomated := if s.debt < s.min_automation_debt then false else s.isAutomated
    collateral :=
      s.collateral - repayDeltaCollateral s target price gas_price_in_gwei service_fee
    debt := s.debt - repayDeltaDebt s target price gas_price_in_gwei service_fee }

def CDP.repayTo (s : CDP) (target price gas_price_in_gwei service_fee : ℚ) : OpResult :=
  if s.debt = 0 then .err s
  else if s.collateral * price / s.debt < target / 100 then
    if 5 * ((1 - service_fee / 100) * (target / 100) - 1) - target / 100 = 0 then .err s
    else if price * (1000000 * gas_price_in_gwei * (1 / 1000000000)) <
        (target / 100 * s.debt - price * s.collateral) /
          (5 * ((1 - service_fee / 100) * (target / 100) - 1) - target / 100) ∨
        100 * (s.collateral * price / s.debt) < s.min_ratio + 10 then
      if price = 0 ∨ (1 - service_fee / 100) * (target / 100) - 1 = 0 then .err s
      else
        if 0 < (repayPost s target price gas_price_in_gwei service_fee).collateral then
          if 0 < (repayPost s target price gas_price_in_gwei service_fee).debt then
            .ok true (repayPost s target price gas_price_in_gwei service_fee)
          else .err (repayPost s target price gas_price_in_gwei service_fee)
        else .err (repayPost s target price gas_price_in_gwei service_fee)
    else .ok false s
  else .ok false s

/-- Body of the tick loop of `simulateLeveragedSingle`
(lines 61-80 of `simulate.py`) for one price: the automation block
(lines 62-70) followed by the solvency assertion of line 80
(`assert vault.collateral > vault.debt/price`, which divides by
`price`).  `none` models any uncaught exception: a zero-debt ratio
computation at line 64, an exception inside `boostTo`/`repayTo`/
`close`, or a failing assertion. -/
def simStep (service_fee gas_price : ℚ) (vault : CDP) (price : ℚ) : Option CDP :=
  (if vault.isAutomated then
    if vault.debt = 0 then none
    else if vault.collateralizationPercent price > vault.automation_settings.boost_from then
      match vault.boostTo vault.automation_settings.boost_to price gas_price service_fee with
      | .err _ => none
      | .ok _ v => some v
    else if vault.collateralizationPercent price < vault.automation_settings.repay_from then
      match vault.repayTo vault.automation_settings.repay_to price gas_price service_fee with
      | .err _ => none
      | .ok _ v =>
        if ¬ v.isAutomated then (v.close price).map Prod.snd else some v
    else some vault
  else some vault).bind fun v =>
    if price = 0 then none
    else if v.collateral > v.debt / price then some v else none

/-- Tick loop of `simulateLeveragedSingle` over the whole price path
(lines 61-86 of `simulate.py`), returning the final vault together
with the per-tick entries appended to `values_in_collateral`,
`values_in_debt` and `collateralizations`. -/
def simLoop (service_fee gas_price : ℚ) (vault : CDP) (prices : List ℚ) :
    Option (CDP × List ℚ × List ℚ × List ℚ) :=
  match prices with
  | [] => some (vault, [], [], [])
  | price :: rest =>
    match simStep service_fee gas_price vault price with
    | none => none
    | some v =>
      match simLoop service_fee gas_price v rest with
      | none => none
      | some (vf, vc, vd, cols) =>
        some (vf,
          (v.collateral - v.debt / price) :: vc,
          (price * (v.collateral - v.debt / price)) :: vd,
          (if 0 < v.debt then v.collateralizationPercent price else 0) :: cols)

/-- Function `simulateLeveragedSingle` of `simulate.py`
(lines 16-100, without the out-of-scope result-file saving):
open a vault with the whole portfolio (line 54), leverage it at the
first price via `boostTo(init_collateralization, price_path[0], 0, 0)`
(line 56, the returned flag is discarded), call `automate` with the
four thresholds (line 57), seed the three recorded lists
(lines 58-60), then run the tick loop.  `none` models any uncaught
exception, including the `IndexError` of `price_path[0]` on an empty
path. -/
def simulateLeveragedSingle (init_portfolio_value init_collateralization min_ratio
    repay_from repay_to boost_from boost_to service_fee gas_price : ℚ)
    (price_path : List ℚ) : Option (List ℚ × List ℚ × List ℚ) :=
  match price_path with
  | [] => none
  | p0 :: _ =>
    let vault0 := CDP.init init_portfolio_value 0 min_ratio
    match vault0.boostTo init_collateralization p0 0 0 with
    | .err _ => none
    | .ok _ vault1 =>
      match vault1.automate repay_from repay_to boost_from boost_to with
      | none => none
      | some vault2 =>
        match simLoop service_fee gas_price vault2 price_path with
        | none => none
        | some (_, vc, vd, cols) =>
          some (init_portfolio_value :: vc,
            init_portfolio_value * p0 :: vd,
            init_collateralization :: cols)

/-- Python's built-in `round` (round-half-to-even), used as
`N = round(T/dt)` in `pricegeneration.py`. -/
noncomputable def pythonRound (x : ℝ) : ℤ :=
  if x - ⌊x⌋ < 1 / 2 then ⌊x⌋
  else if 1 / 2 < x - ⌊x⌋ then ⌊x⌋ + 1
  else if Even ⌊x⌋ then ⌊x⌋ else ⌊x⌋ + 1

/-- The endpoint-inclusive grid `np.linspace a b n`: the `i`-th sample
is `a + (b - a) * i / (n - 1)`. -/
noncomputable def linspace (a b : ℝ) (n : ℕ) : List ℝ :=
  List.ofFn fun i : Fin n => a + (b - a) * i / ((n : ℝ) - 1)

/-- The running sums `np.cumsum`. -/
def cumsum (l : List ℝ) : List ℝ :=
  (l.scanl (· + ·) 0).tail

/-- Function `generateBoundedGBM` of `pricegeneration.py`
(lines 188-215), with the standard-normal draws
`np.random.standard_normal(size = N)` passed in as the list `Z`
(the claims quantify over every realization of the increments):

* `mu = (1/T)*log(end/start) + sigma^2/2` (line 207);
* `N = round(T/dt)` (line 208), `t = np.linspace(0, T, N)` (line 209);
* `W = cumsum(Z)*sqrt(dt)` (line 211), then detrended by its own last
  value, `W := W - (t/T)*W[-1]` (line 212);
* `X = (mu - 0.5*sigma^2)*t + sigma*W`, `S = S0*exp(X)`
  (lines 213-214).

Returns the pair `(t, S)`. -/
noncomputable def generateBoundedGBM (T sigma start_price end_price dt : ℝ)
    (Z : List ℝ) : List ℝ × List ℝ :=
  let S0 := start_price
  let mu := (1 / T) * Real.log (end_price / start_price) + sigma ^ 2 / 2
  let N := (pythonRound (T / dt)).toNat
  let t := linspace 0 T N
  let W0 := (cumsum Z).map fun w => w * Real.sqrt dt
  let Wlast := W0.getLast?.getD 0
  let W := t.zipWith (fun ti wi => wi - ti / T * Wlast) W0
  let X := t.zipWith (fun ti wi => (mu - 0.5 * sigma ^ 2) * ti + sigma * wi) W
  let S := X.map fun x => S0 * Real.exp x
  (t, S)

/-- Claim C7: for every position with `debt = 0` and every price, gas
price and service fee, `repayTo` fails fatally (an uncaught exception,
here the `ZeroDivisionError` of line 172, rather than a no-op status),
and the position's state is unchanged by the failed call (the `err`
outcome carries the state at the moment the exception is raised, which
is the original state). -/
theorem repayTo_zero_debt_is_fatal (s : CDP) (target price gwei fee : ℚ)
    (h : s.debt = 0) :
    s.repayTo target price gwei fee = .err s := by
  simp only [CDP.repayTo, if_pos h]

/-- Witness for `repayTo_zero_debt_is_fatal` at a concrete input. -/
theorem repayTo_zero_debt_is_fatal_witness :
    (CDP.init 100 0 150).debt = 0 ∧
    (CDP.init 100 0 150).repayTo 150 1 20 0 = .err (CDP.init 100 0 150) :=
  ⟨rfl, repayTo_zero_debt_is_fatal (CDP.init 100 0 150) 150 1 20 0 rfl⟩

/-- Claim C8: for every position and positive price, `close` with
positive debt zeroes the debt, removes `debt/price` collateral and
returns the remaining collateral; with zero debt it changes nothing
and returns the collateral. -/
theorem close_spec (s : CDP) (price : ℚ) (hp : 0 < price) :
    (0 < s.debt →
      s.close price = some (s.collateral - s.debt / price,
        { s with collateral := s.collateral - s.debt / price, debt := 0 })) ∧
    (s.debt = 0 → s.close price = some (s.collateral, s)) := by
  constructor
  · intro hd
    simp [CDP.close, hd, hp.ne']
  · intro hd
    simp [CDP.close, hd]

/-- Witness for `close_spec` at a concrete input. -/
theorem close_spec_witness :
    CDP.close (CDP.init 80 50 150) 2 =
      some ((CDP.init 80 50 150).collateral - (CDP.init 80 50 150).debt / 2,
        { CDP.init 80 50 150 with
          collateral := (CDP.init 80 50 150).collateral - (CDP.init 80 50 150).debt / 2,
          debt := 0 }) :=
  (close_spec (CDP.init 80 50 150) 2 (by norm_num)).1 (by norm_num [CDP.init])

/-- Claim C9: with positive debt and positive price, calling `boostTo`
or `repayTo` with target exactly equal to the current
collateralization ratio returns `False` and changes nothing: both
eligibility conditions are strict inequalities, false at equality. -/
theorem boost_repay_noop_at_exact_ratio (s : CDP) (price gwei fee : ℚ)
    (hd : 0 < s.debt) (hp : 0 < price) :
    s.boostTo (100 * s.collateral * price / s.debt) price gwei fee = .ok false s ∧
    s.repayTo (100 * s.collateral * price / s.debt) price gwei fee = .ok false s := by
  have key : (100 * s.collateral * price / s.debt) / 100 = s.collateral * price / s.debt := by
    ring
  constructor
  · unfold CDP.boostTo
    rw [if_neg]
    push_neg
    exact ⟨hd.ne', key.ge⟩
  · simp only [CDP.repayTo]
    rw [if_neg hd.ne', if_neg (not_lt.mpr key.le)]

/-- Witness for `boost_repay_noop_at_exact_ratio` at a concrete input. -/
theorem boost_repay_noop_at_exact_ratio_witness :
    CDP.boostTo (CDP.init 100 100 150)
        (100 * (CDP.init 100 100 150).collateral * 1 / (CDP.init 100 100 150).debt) 1 30 1 =
      .ok false (CDP.init 100 100 150) ∧
    CDP.repayTo (CDP.init 100 100 150)
        (100 * (CDP.init 100 100 150).collateral * 1 / (CDP.init 100 100 150).debt) 1 30 1 =
      .ok false (CDP.init 100 100 150) :=
  boost_repay_noop_at_exact_ratio (CDP.init 100 100 150) 1 30 1
    (by norm_num [CDP.init]) (by norm_num)

/-- Claim C6: whenever `boostTo` or `repayTo` returns `False` (no
exception), the position is left completely unchanged — collateral,
debt, automation settings and the automation flag all keep their prior
values. -/
theorem false_return_leaves_state_unchanged
    (s1 : CDP) (t1 p1 g1 f1 : ℚ) (r1 : CDP)
    (s2 : CDP) (t2 p2 g2 f2 : ℚ) (r2 : CDP)
    (hb : s1.boostTo t1 p1 g1 f1 = .ok false r1)
    (hr : s2.repayTo t2 p2 g2 f2 = .ok false r2) :
    r1 = s1 ∧ r2 = s2 := by
  constructor
  · simp only [CDP.boostTo] at hb
    split_ifs at hb <;>
      first
        | (injection hb with hB hs; exact hs.symm)
        | (injection hb with hB hs; exact absurd hB (by simp))
  · simp only [CDP.repayTo] at hr
    split_ifs at hr <;>
      first
        | (injection hr with hB hs; exact hs.symm)
        | (injection hr with hB hs; exact absurd hB (by simp))

/-- Witness for `false_return_leaves_state_unchanged` at concrete
inputs: an ineligible boost (target above the current ratio) and an
ineligible repay (target below the current ratio). -/
theorem false_return_leaves_state_unchanged_witness :
    CDP.init 100 100 150 = CDP.init 100 100 150 ∧
    CDP.init 100 100 150 = CDP.init 100 100 150 :=
  false_return_leaves_state_unchanged
    (CDP.init 100 100 150) 200 1 30 1 (CDP.init 100 100 150)
    (CDP.init 100 100 150) 50 1 30 1 (CDP.init 100 100 150)
    (by norm_num [CDP.boostTo, CDP.init])
    (by norm_num [CDP.repayTo, CDP.init])


/-- Core algebraic fact behind the boost operation: for any gas value
`g`, adding `deltaDebt = (p*c - p*g - t*d)/(t - gamma)` to the debt and
`(gamma*deltaDebt - p*g)/p` to the collateral lands the ratio exactly
on `100*t`. -/
theorem boost_ratio_identity (c d p t gamma g : ℚ) (hp : p ≠ 0) (ht : ¬t - gamma = 0)
    (hden : d + (p * c - p * g - t * d) / (t - gamma) ≠ 0) :
    100 * (c + (gamma * ((p * c - p * g - t * d) / (t - gamma)) - p * g) / p) * p /
      (d + (p * c - p * g - t * d) / (t - gamma)) = 100 * t := by
  rw [div_eq_iff hden]
  field_simp
  ring

/-- Core algebraic fact behind the repay operation: for any gas value
`g`, removing `deltaCollateral = (t*d + t*p*g - p*c)/(p*(gamma*t - 1))`
from the collateral and `gamma*p*deltaCollateral - p*g` from the debt
lands the ratio exactly on `100*t`. -/
theorem repay_ratio_identity (c d p t gamma g : ℚ) (hp : p ≠ 0)
    (ht : ¬gamma * t - 1 = 0)
    (hden : d - (gamma * p * ((t * d + t * p * g - p * c) / (p * (gamma * t - 1))) - p * g) ≠ 0) :
    100 * (c - (t * d + t * p * g - p * c) / (p * (gamma * t - 1))) * p /
      (d - (gamma * p * ((t * d + t * p * g - p * c) / (p * (gamma * t - 1))) - p * g)) =
      100 * t := by
  rw [div_eq_iff hden]
  field_simp
  ring

/-- Claim C2: whenever `boostTo` returns `True`, the post-state
collateralization ratio `100 * collateral * price / debt` equals the
requested target exactly (in exact arithmetic), for the gas value
actually charged, including the branch where the gas price is capped
at 499 gwei. -/
theorem boostTo_lands_on_target (s : CDP) (target price gwei fee : ℚ) (s1 : CDP)
    (hdebt : 0 ≤ s.debt) (hprice : 0 < price)
    (h : s.boostTo target price gwei fee = .ok true s1) :
    s1.collateralizationPercent price = target := by
  simp only [CDP.boostTo] at h
  split_ifs at h
  all_goals simp only [OpResult.ok.injEq, Bool.false_eq_true, false_and] at h
  all_goals obtain ⟨-, h⟩ := h
  all_goals subst h
  all_goals rename_i htg hpr hdp hcp
  all_goals
    have hne : s.debt + boostDeltaDebt s target price gwei fee ≠ 0 := by
      have := ne_of_gt hdp
      simpa only [boostPost] using this
  all_goals
    simp only [CDP.collateralizationPercent, boostPost, boostDeltaCollateral,
      boostDeltaDebt]
  all_goals
    have key := boost_ratio_identity s.collateral s.debt price (target / 100)
      (1 - fee / 100) (boostGas gwei) hpr htg
      (by simpa only [boostDeltaDebt] using hne)
  all_goals
    exact key.trans (by ring)

/-- Witness for `boostTo_lands_on_target` at a concrete input that
exercises the 499-gwei cap (gas price 1000 gwei). -/
theorem boostTo_lands_on_target_witness :
    0 ≤ (CDP.init 100 1 150).debt ∧ 0 < (1 : ℚ) ∧
    CDP.collateralizationPercent
      { CDP.init 100 1 150 with collateral := 295503 / 1000, debt := 197002 / 1000 } 1 =
      150 :=
  ⟨by norm_num [CDP.init], by norm_num,
    boostTo_lands_on_target (CDP.init 100 1 150) 150 1 1000 0
      { CDP.init 100 1 150 with collateral := 295503 / 1000, debt := 197002 / 1000 }
      (by norm_num [CDP.init]) (by norm_num)
      (by norm_num [CDP.boostTo, boostPost, boostDeltaCollateral, boostDeltaDebt,
        boostGas, CDP.init])⟩

/-- Claim C3: whenever `repayTo` returns `True`, the post-state
collateralization ratio equals the requested target exactly (in exact
arithmetic) for the gas value actually charged — both when the
non-emergency gate passes and when the emergency override applies with
the gas clamped to the 20-percent-of-notional bound. -/
theorem repayTo_lands_on_target (s : CDP) (target price gwei fee : ℚ) (s2 : CDP)
    (hdebt : 0 < s.debt) (hprice : 0 < price)
    (h : s.repayTo target price gwei fee = .ok true s2) :
    s2.collateralizationPercent price = target := by
  simp only [CDP.repayTo] at h
  split_ifs at h
  all_goals simp only [OpResult.ok.injEq, Bool.false_eq_true, false_and] at h
  all_goals obtain ⟨-, h⟩ := h
  all_goals subst h
  all_goals rename_i hnz hcp hdp
  all_goals push_neg at hnz
  all_goals
    have hne : s.debt - repayDeltaDebt s target price gwei fee ≠ 0 := by
      have := ne_of_gt hdp
      simpa only [repayPost] using this
  all_goals
    simp only [CDP.collateralizationPercent, repayPost, repayDeltaDebt,
      repayDeltaCollateral]
  all_goals
    have key := repay_ratio_identity s.collateral s.debt price (target / 100)
      (1 - fee / 100) (repayGas s target price gwei fee) hnz.1 hnz.2
      (by simpa only [repayDeltaDebt, repayDeltaCollateral] using hne)
  all_goals
    exact key.trans (by ring)

/-- Witness for `repayTo_lands_on_target` at a concrete input (a
non-emergency repay from ratio 150 percent to target 200 percent). -/
theorem repayTo_lands_on_target_witness :
    0 < (CDP.init 15000 10000 100).debt ∧ 0 < (1 : ℚ) ∧
    CDP.collateralizationPercent
      { CDP.init 15000 10000 100 with collateral := 10000, debt := 5000 } 1 = 200 :=
  ⟨by norm_num [CDP.init], by norm_num,
    repayTo_lands_on_target (CDP.init 15000 10000 100) 200 1 0 0
      { CDP.init 15000 10000 100 with collateral := 10000, debt := 5000 }
      (by norm_num [CDP.init]) (by norm_num)
      (by norm_num [CDP.repayTo, repayPost, repayDeltaCollateral, repayDeltaDebt,
        repayGas, CDP.init])⟩

/-- Claim C4 (amended): for every successful `repayTo`, if the debt
*before* the repay is below `min_automation_debt`, the automation flag
is disabled by that operation.  (The source checks the pre-repay debt
at line 211, before the update of line 215 — not the resulting
debt.) -/
theorem repayTo_disables_automation_on_low_prior_debt
    (s : CDP) (target price gwei fee : ℚ) (s2 : CDP)
    (h : s.repayTo target price gwei fee = .ok true s2)
    (hlow : s.debt < s.min_automation_debt) :
    s2.isAutomated = false := by
  simp only [CDP.repayTo] at h
  split_ifs at h
  all_goals simp only [OpResult.ok.injEq, Bool.false_eq_true, false_and] at h
  all_goals obtain ⟨-, h⟩ := h
  all_goals subst h
  all_goals simp only [repayPost, if_pos hlow]

/-- Witness for `repayTo_disables_automation_on_low_prior_debt` at a
concrete input: an automated position with debt 5000 (below the 10000
floor) repays successfully and comes out with the flag cleared. -/
theorem repayTo_disables_automation_on_low_prior_debt_witness :
    ({ CDP.init 7500 5000 100 with isAutomated := true } : CDP).debt <
      ({ CDP.init 7500 5000 100 with isAutomated := true } : CDP).min_automation_debt ∧
    ({ CDP.init 7500 5000 100 with
        isAutomated := false, collateral := 5000, debt := 2500 } : CDP).isAutomated =
      false :=
  ⟨by norm_num [CDP.init],
    repayTo_disables_automation_on_low_prior_debt
      { CDP.init 7500 5000 100 with isAutomated := true } 200 1 0 0
      { CDP.init 7500 5000 100 with
        isAutomated := false, collateral := 5000, debt := 2500 }
      (by norm_num [CDP.repayTo, repayPost, repayDeltaCollateral, repayDeltaDebt,
        repayGas, CDP.init])
      (by norm_num [CDP.init])⟩

/-- Counterexample to claim C4 as stated: a successful repay whose
*resulting* debt (5000) is below `min_automation_debt` (10000) but
which leaves the automation flag enabled, because the source tests the
debt before the update (10000, not below the floor). -/
theorem repayTo_low_post_debt_keeps_automation :
    CDP.repayTo { CDP.init 15000 10000 100 with isAutomated := true } 200 1 0 0 =
      .ok true { CDP.init 15000 10000 100 with
        isAutomated := true, collateral := 10000, debt := 5000 } ∧
    ({ CDP.init 15000 10000 100 with
        isAutomated := true, collateral := 10000, debt := 5000 } : CDP).debt <
      ({ CDP.init 15000 10000 100 with
        isAutomated := true, collateral := 10000, debt := 5000 } : CDP).min_automation_debt ∧
    ({ CDP.init 15000 10000 100 with
        isAutomated := true, collateral := 10000, debt := 5000 } : CDP).isAutomated =
      true := by
  refine ⟨?_, by norm_num [CDP.init], by norm_num [CDP.init]⟩
  norm_num [CDP.repayTo, repayPost, repayDeltaCollateral, repayDeltaDebt, repayGas,
    CDP.init]

/-- The gas value used for the deltas of a boost equals the conversion
of the 499-capped gas price, `1e6 * min(gwei, 499) * 1e-9`. -/
theorem boostGas_eq_min (gwei : ℚ) :
    boostGas gwei = 1000000 * min gwei 499 * (1 / 1000000000) := by
  unfold boostGas
  split_ifs with hc
  · rw [min_eq_right hc.le]
  · rw [min_eq_left (not_lt.mp hc)]

/-- Gas accounting of a successful boost (the amended claim C5): the
economic gate is the comparison with the *uncapped* conversion
`1e6 * gwei * 1e-9`, while the debt and collateral deltas use the
capped conversion `1e6 * min(gwei, 499) * 1e-9`. -/
def boostCappedGasDeltas (s : CDP) (target price gas_price_in_gwei service_fee : ℚ)
    (s1 : CDP) : Prop :=
  price * (1000000 * gas_price_in_gwei * (1 / 1000000000)) <
      (price * s.collateral - target / 100 * s.debt) /
        (5 * (target / 100 - (1 - service_fee / 100)) + 1) ∧
  s1.debt = s.debt +
      (price * s.collateral -
          price * (1000000 * min gas_price_in_gwei 499 * (1 / 1000000000)) -
        target / 100 * s.debt) / (target / 100 - (1 - service_fee / 100)) ∧
  s1.collateral = s.collateral +
      ((1 - service_fee / 100) *
          ((price * s.collateral -
              price * (1000000 * min gas_price_in_gwei 499 * (1 / 1000000000)) -
            target / 100 * s.debt) / (target / 100 - (1 - service_fee / 100))) -
        price * (1000000 * min gas_price_in_gwei 499 * (1 / 1000000000))) / price

/-- Claim C5 (amended): for every successful boost, the economic-gate
comparison uses the uncapped gas conversion, and the debt and
collateral deltas use the gas conversion of the 499-capped gas price —
the cap is applied after the gate, not before it. -/
theorem boostTo_gas_cap_accounting (s : CDP) (target price gwei fee : ℚ) (s1 : CDP)
    (h : s.boostTo target price gwei fee = .ok true s1) :
    boostCappedGasDeltas s target price gwei fee s1 := by
  simp only [CDP.boostTo] at h
  split_ifs at h
  all_goals simp only [OpResult.ok.injEq, Bool.false_eq_true, false_and] at h
  all_goals obtain ⟨-, h⟩ := h
  all_goals subst h
  all_goals rename_i hgate htg hpr hdp hcp
  all_goals
    exact ⟨hgate,
      by simp only [boostPost, boostDeltaDebt, boostGas_eq_min],
      by simp only [boostPost, boostDeltaCollateral, boostDeltaDebt, boostGas_eq_min]⟩

/-- Witness for `boostTo_gas_cap_accounting` at a concrete input with
gas price 1000 gwei (so the cap is active in the deltas). -/
theorem boostTo_gas_cap_accounting_witness :
    boostCappedGasDeltas (CDP.init 100 1 150) 150 1 1000 0
      { CDP.init 100 1 150 with collateral := 295503 / 1000, debt := 197002 / 1000 } :=
  boostTo_gas_cap_accounting (CDP.init 100 1 150) 150 1 1000 0
    { CDP.init 100 1 150 with collateral := 295503 / 1000, debt := 197002 / 1000 }
    (by norm_num [CDP.boostTo, boostPost, boostDeltaCollateral, boostDeltaDebt,
      boostGas, CDP.init])

/-- Counterexample to claim C5 as stated: with gas price 1000000 gwei
the gate compares against the *uncapped* conversion and blocks the
boost (`False`, no state change), while the same call with the
499-capped gas price `min 1000000 499` passes the gate and boosts —
so the gate does not use the capped gas value. -/
theorem boostTo_gate_uses_uncapped_gas :
    CDP.boostTo (CDP.init 100 1 150) 150 1 1000000 0 = .ok false (CDP.init 100 1 150) ∧
    CDP.boostTo (CDP.init 100 1 150) 150 1 (min 1000000 499) 0 ≠
      .ok false (CDP.init 100 1 150) := by
  constructor
  · norm_num [CDP.boostTo, CDP.init]
  · rw [show min (1000000 : ℚ) 499 = 499 by norm_num]
    norm_num [CDP.boostTo, boostPost, boostDeltaCollateral, boostDeltaDebt, boostGas,
      CDP.init]

/-- Claim C1 (failing run): a concrete simulation exhibiting that the
tick loop never attempts a boost or repay.  `automate` (line 92 of
`cdp.py`) assigns the attribute `automated`, while the loop of
`simulate.py` (line 63) tests `isAutomated`, which stays `false`; so
with portfolio 100 opened at ratio 200 percent and boost-from
threshold 220 percent, the recorded collateralization at the second
tick is 400 percent — above the threshold, yet no boost to the
200-percent boost-to target took place (the position's collateral and
debt never change after opening, which is why the recorded
collateralization doubles with the price instead of being pulled back
to 200). -/
theorem simulateLeveragedSingle_run_without_rebalancing :
    simulateLeveragedSingle 100 200 150 165 190 220 200 0 0 [1, 2] =
      some ([100, 100, 150], [100, 100, 300], [200, 200, 400]) := by
  norm_num [simulateLeveragedSingle, simLoop, simStep, CDP.boostTo, boostPost,
    boostDeltaCollateral, boostDeltaDebt, boostGas, CDP.automate, CDP.init,
    CDP.collateralizationPercent]

/-- Running sums preserve length. -/
theorem cumsum_length (l : List ℝ) : (cumsum l).length = l.length := by
  simp [cumsum, List.length_scanl]

/-- The grid has the requested number of samples. -/
theorem linspace_length (a b : ℝ) (n : ℕ) : (linspace a b n).length = n := by
  simp [linspace]

/-- The last element of a list of known positive length, as an indexed
element. -/
theorem getLast?_getD_eq_getElem (l : List ℝ) (n : ℕ) (hl : l.length = n)
    (hn : n - 1 < l.length) : l.getLast?.getD 0 = l[n - 1] := by
  subst hl
  rw [List.getLast?_eq_getElem?, List.getElem?_eq_getElem hn]
  rfl

/-- Claim C10: the bounded GBM is pinned exactly to the end price: for
every horizon `T > 0`, step size with `N = round(T/dt) ≥ 2`, any
volatility, positive start and end prices, and every realization of
the standard-normal increments, the last element of the returned price
series equals `end` exactly. -/
theorem generateBoundedGBM_pins_end_price (T sigma start_price end_price dt : ℝ)
    (Z : List ℝ) (hT : 0 < T) (hstart : 0 < start_price) (hend : 0 < end_price)
    (hN : 2 ≤ (pythonRound (T / dt)).toNat)
    (hZ : Z.length = (pythonRound (T / dt)).toNat) :
    (generateBoundedGBM T sigma start_price end_price dt Z).2.getLast? =
      some end_price := by
  simp only [generateBoundedGBM]
  set N := (pythonRound (T / dt)).toNat with hNdef
  have hW0len : ((cumsum Z).map fun w => w * Real.sqrt dt).length = N := by
    simp [cumsum_length, hZ]
  have hW0pos : N - 1 < ((cumsum Z).map fun w => w * Real.sqrt dt).length := by
    rw [hW0len]; omega
  rw [getLast?_getD_eq_getElem _ N hW0len hW0pos]
  have hSlen :
      (((linspace 0 T N).zipWith
          (fun ti wi =>
            ((1 / T) * Real.log (end_price / start_price) + sigma ^ 2 / 2 -
                0.5 * sigma ^ 2) * ti + sigma * wi)
          ((linspace 0 T N).zipWith
            (fun ti wi =>
              wi - ti / T * ((cumsum Z).map fun w => w * Real.sqrt dt)[N - 1])
            ((cumsum Z).map fun w => w * Real.sqrt dt))).map
        fun x => start_price * Real.exp x).length = N := by
    simp [linspace_length, cumsum_length, hZ]
  rw [List.getLast?_eq_getElem?, hSlen, List.getElem?_eq_getElem (by rw [hSlen]; omega)]
  refine congrArg some ?_
  have hb1 : N - 1 < N := by omega
  simp only [List.getElem_map, List.getElem_zipWith, linspace, List.getElem_ofFn]
  have hcast : ((N - 1 : ℕ) : ℝ) = (N : ℝ) - 1 := by
    rw [Nat.cast_sub (by omega), Nat.cast_one]
  have hN1 : (N : ℝ) - 1 ≠ 0 := by
    have h2 : (2 : ℝ) ≤ (N : ℝ) := by exact_mod_cast hN
    intro hcon
    rw [sub_eq_zero] at hcon
    linarith
  have htVal : 0 + (T - 0) * ((N - 1 : ℕ) : ℝ) / ((N : ℝ) - 1) = T := by
    rw [hcast]
    field_simp
  rw [htVal, div_self hT.ne', one_mul, sub_self, mul_zero, add_zero]
  have hmu : ((1 / T) * Real.log (end_price / start_price) + sigma ^ 2 / 2 -
      0.5 * sigma ^ 2) * T = Real.log (end_price / start_price) := by
    field_simp
    ring
  rw [hmu, Real.exp_log (div_pos hend hstart), mul_comm,
    div_mul_cancel₀ _ hstart.ne']

/-- Witness for `generateBoundedGBM_pins_end_price` at a concrete
input: horizon 1, volatility 0, start 1, end 2, step 1/2 (two samples)
and zero increments. -/
theorem generateBoundedGBM_pins_end_price_witness :
    2 ≤ (pythonRound ((1 : ℝ) / (1 / 2))).toNat ∧
    ([(0 : ℝ), 0]).length = (pythonRound ((1 : ℝ) / (1 / 2))).toNat ∧
    (generateBoundedGBM 1 0 1 2 (1 / 2) [0, 0]).2.getLast? = some 2 :=
  ⟨by (norm_num [pythonRound, Int.floor_ofNat]; try rfl),
    by (norm_num [pythonRound, Int.floor_ofNat]; try rfl),
    generateBoundedGBM_pins_end_price 1 0 1 2 (1 / 2) [0, 0]
      (by norm_num) (by norm_num) (by norm_num)
      (by (norm_num [pythonRound, Int.floor_ofNat]; try rfl))
      (by (norm_num [pythonRound, Int.floor_ofNat]; try rfl))⟩
